/-
Verification of the fake-news-detector pipeline.

Shallow embedding of the Python source files `main.py`, `crawler_simple.py`
and `domain_database.py`.  Conventions used throughout:

* All risk scores and confidences are represented in hundredths as `Int`
  (so the Python `0.5` becomes `50`, `0.05` becomes `5`).  Every constant
  appearing in the source is an exact multiple of `0.05`, so this scaling
  is exact.
* Python's substring test `needle in hay` is modelled by `pyIn`.
* Python's `str.lower()` is modelled by `pyLower`, `str.strip()` by
  `pyStrip`, and `len` on a string by `String.length` (both count Unicode
  code points).
* The regex indicator patterns of the claim extractor are abstracted as an
  explicit list of Boolean predicates on sentences (`indicators`); one of
  the concrete source patterns (`\b(?:immer|nie|alle|keine|jeder)\b`) is
  modelled concretely as `indicatorAbsolutist` for use on concrete inputs.
* The fact-check HTTP call is modelled as a pure function of an abstract
  outcome of the request (`ApiOutcome`), covering the exception, status
  and JSON-shape cases that the Python `try/except` distinguishes.
-/
import Mathlib

set_option maxRecDepth 100000

namespace FakeNewsDetector

/-- Python's `needle in hay` substring test on strings. -/
def pyIn (needle hay : String) : Bool :=
  listInfix needle.toList hay.toList
where
  listInfix : List Char → List Char → Bool
    | n, [] => n.isEmpty
    | n, hay@(_ :: rest) => n.isPrefixOf hay || listInfix n rest

/-- Python's `str.lower()`, modelled as per-character lowering (which on the
ASCII inputs considered here agrees with Python; `Char.toLower` lowers only
ASCII letters). -/
def pyLower (s : String) : String := String.mk (s.toList.map Char.toLower)

/-- Python's `str.strip()`: drop leading and trailing whitespace. -/
def pyStrip (s : String) : String :=
  String.mk
    (((s.toList.dropWhile Char.isWhitespace).reverse.dropWhile
        Char.isWhitespace).reverse)

/-- `max(0, min(1, score))` from both scorers, in hundredths. -/
def clamp01 (s : Int) : Int := max 0 (min 100 s)

/-! ## domain_database.py : the static domain classification table -/

/-- `DOMAIN_DATABASE["fake"]` from `domain_database.py`. -/
def FAKE_DOMAINS : List String :=
  ["abcnews.com.co", "beforeitsnews.com", "civictribune.com",
   "denverguardian.com", "empirenews.net", "huzlers.com",
   "nationalreport.net", "newsexaminer.net", "newsbiscuit.com",
   "now8news.com", "prntly.com", "react365.com", "realorsatire.com",
   "thebostontribune.com", "thelastlineofdefense.org", "tmzhiphop.com",
   "usatoday.com.co", "uspoln.com", "worldnewsdailyreport.com",
   "yournewswire.com", "newspunch.com", "neonnettle.com",
   "awarenessact.com", "dailyworldupdate.com"]

/-- `DOMAIN_DATABASE["conspiracy"]`. -/
def CONSPIRACY_DOMAINS : List String :=
  ["infowars.com", "prisonplanet.com", "naturalnews.com",
   "globalresearch.ca", "activistpost.com", "collectiveevolution.com",
   "davidicke.com", "disclose.tv", "rense.com", "whatdoesitmean.com",
   "abovetopsecret.com", "vigilantcitizen.com", "zerohedge.com",
   "thefreethoughtproject.com", "intellihub.com", "newstarget.com",
   "humansarefree.com", "theeventchronicle.com", "stillnessinthestorm.com"]

/-- `DOMAIN_DATABASE["state"]`. -/
def STATE_MEDIA_DOMAINS : List String :=
  ["rt.com", "sputniknews.com", "tass.com", "ria.ru", "xinhuanet.com",
   "globaltimes.cn", "presstv.ir", "telesurtv.net", "almasdarnews.com",
   "southfront.org", "strategic-culture.org", "journal-neo.org",
   "veteranstoday.com"]

/-- `DOMAIN_DATABASE["unreliable"]`. -/
def UNRELIABLE_DOMAINS_DB : List String :=
  ["bipartisanreport.com", "dailywire.com", "thegatewaypundit.com",
   "100percentfedup.com", "addictinginfo.com", "americannews.com",
   "conservativetribune.com", "dailycaller.com", "dcgazette.com",
   "endingthefed.com", "freedomdaily.com", "libertywriters.com",
   "madworldnews.com", "occupydemocrats.com", "palmerreport.com",
   "politicususa.com", "redstatewatcher.com", "rightwingnews.com",
   "usapoliticstoday.com", "westernjournalism.com", "youngcons.com"]

/-- `DOMAIN_DATABASE["bias"]`. -/
def BIASED_DOMAINS : List String :=
  ["breitbart.com", "dailykos.com", "theblaze.com", "townhall.com",
   "redstate.com", "pjmedia.com", "hotair.com", "americanthinker.com",
   "frontpagemag.com", "wnd.com", "newsmax.com", "oann.com",
   "thefederalist.com", "twitchy.com", "ijr.com", "commondreams.org",
   "alternet.org", "truthout.org", "rawstory.com", "crooksandliars.com"]

/-- `DOMAIN_DATABASE["clickbait"]`. -/
def CLICKBAIT_DOMAINS : List String :=
  ["buzzfeed.com", "viralnova.com", "distractify.com", "upworthy.com",
   "hefty.co", "dailybuzzlive.com", "boredomtherapy.com", "faithit.com",
   "shareably.net", "inspiremore.com"]

/-- `DOMAIN_DATABASE["junksci"]`. -/
def JUNKSCI_DOMAINS : List String :=
  ["naturalnews.com", "greenmedinfo.com", "mercola.com",
   "healthnutnews.com", "wakingtimes.com", "collective-evolution.com",
   "thehealthyhomeeconomist.com", "foodbabe.com", "realfarmacy.com",
   "preventdisease.com", "healthimpactnews.com"]

/-- `DOMAIN_DATABASE["hate"]`. -/
def HATE_DOMAINS : List String :=
  ["dailystormer.su", "vdare.com", "amren.com", "stormfront.org",
   "jihadwatch.org", "barenakedislam.com", "pamelageller.com"]

/-- `DOMAIN_DATABASE["satire"]`. -/
def SATIRE_DOMAINS : List String :=
  ["theonion.com", "clickhole.com", "babylonbee.com",
   "borowitz-report.com", "dailycurrant.com", "duffelblog.com",
   "empiresports.co", "faking-news.com", "gomerblog.com", "huzlers.com",
   "nationalreport.net", "newsthump.com", "private-eye.co.uk",
   "reductress.com", "rockcitytimes.com", "satirewire.com",
   "thelapine.ca", "waterfordwhispersnews.com"]

/-- `DOMAIN_DATABASE["aggregator"]`. -/
def AGGREGATOR_DOMAINS : List String :=
  ["bignewsnetwork.com", "northkoreatimes.com", "koaborea.com",
   "maborea.com", "newkerala.com", "menafn.com", "timesnewswire.com",
   "webindia123.com", "thestatesman.net", "morningstaronline.co.uk"]

/-- `HIGH_RISK_DOMAINS = FAKE + CONSPIRACY + STATE_MEDIA + HATE`. -/
def HIGH_RISK_DOMAINS : List String :=
  FAKE_DOMAINS ++ CONSPIRACY_DOMAINS ++ STATE_MEDIA_DOMAINS ++ HATE_DOMAINS

/-- `MEDIUM_RISK_DOMAINS = UNRELIABLE + BIASED + CLICKBAIT + JUNKSCI + AGGREGATOR`. -/
def MEDIUM_RISK_DOMAINS : List String :=
  UNRELIABLE_DOMAINS_DB ++ BIASED_DOMAINS ++ CLICKBAIT_DOMAINS ++
    JUNKSCI_DOMAINS ++ AGGREGATOR_DOMAINS

/-- `SATIRE_RISK_DOMAINS = SATIRE_DOMAINS`. -/
def SATIRE_RISK_DOMAINS : List String := SATIRE_DOMAINS

/-- The `for d in HIGH_RISK_DOMAINS` loop of `get_domain_risk`: returns on the
first list entry that is a substring of the lowered domain, choosing the
category by membership tests in the order fake, hate, conspiracy, state; a
matching entry in none of the four lists falls through to the next entry
(as the Python loop would). -/
def highRiskLookup : List String → String → Option (Int × String × String)
  | [], _ => none
  | d :: rest, dl =>
    if pyIn d dl then
      if FAKE_DOMAINS.contains d then some (60, "HIGH", "fake")
      else if HATE_DOMAINS.contains d then some (60, "HIGH", "hate")
      else if CONSPIRACY_DOMAINS.contains d then some (50, "HIGH", "conspiracy")
      else if STATE_MEDIA_DOMAINS.contains d then some (50, "HIGH", "state_media")
      else highRiskLookup rest dl
    else highRiskLookup rest dl

/-- The `for d in MEDIUM_RISK_DOMAINS` loop of `get_domain_risk`; category
tests in source order junksci, unreliable, biased, aggregator, clickbait. -/
def mediumRiskLookup : List String → String → Option (Int × String × String)
  | [], _ => none
  | d :: rest, dl =>
    if pyIn d dl then
      if JUNKSCI_DOMAINS.contains d then some (35, "MEDIUM", "junk_science")
      else if UNRELIABLE_DOMAINS_DB.contains d then some (30, "MEDIUM", "unreliable")
      else if BIASED_DOMAINS.contains d then some (25, "MEDIUM", "biased")
      else if AGGREGATOR_DOMAINS.contains d then some (25, "MEDIUM", "aggregator")
      else if CLICKBAIT_DOMAINS.contains d then some (20, "MEDIUM", "clickbait")
      else mediumRiskLookup rest dl
    else mediumRiskLookup rest dl

/-- The `for d in SATIRE_RISK_DOMAINS` loop of `get_domain_risk`. -/
def satireLookup : List String → String → Option (Int × String × String)
  | [], _ => none
  | d :: rest, dl =>
    if pyIn d dl then some (15, "LOW", "satire") else satireLookup rest dl

/-- `get_domain_risk(domain)` from `domain_database.py`, returning
`(score_boost, risk_level, category)` with the score in hundredths. -/
def get_domain_risk (domain : String) : Int × String × String :=
  let domain_lower := pyLower domain
  match highRiskLookup HIGH_RISK_DOMAINS domain_lower with
  | some r => r
  | none =>
    match mediumRiskLookup MEDIUM_RISK_DOMAINS domain_lower with
    | some r => r
    | none =>
      match satireLookup SATIRE_RISK_DOMAINS domain_lower with
      | some r => r
      | none => (0, "UNKNOWN", "unknown")

/-! ## Data model: claims and fact-check results -/

/-- The `Claim` dataclass of `main.py` (confidence in hundredths). -/
structure Claim where
  text : String
  source_article_url : String
  extraction_method : String
  confidence : Int
deriving Repr, DecidableEq

/-- The dict returned by both fact-check lookup functions:
`{"found": ..., "rating": ..., "source": ..., "url": ...}`. -/
structure FactCheck where
  found : Bool
  rating : Option String
  source : Option String
  url : Option String
deriving Repr, DecidableEq

/-- The neutral not-found result both lookups start from. -/
def fcNotFound : FactCheck :=
  { found := false, rating := none, source := none, url := none }

/-! ## main.py : calculate_risk_score -/

/-- The small inline `UNRELIABLE_DOMAINS` list of `main.py`. -/
def MAIN_UNRELIABLE_DOMAINS : List String :=
  ["rt.com", "sputniknews", "epochtimes", "breitbart", "infowars",
   "naturalnews", "beforeitsnews"]

/-- False/misleading marker words of `main.py`'s factor 1. -/
def MAIN_FALSE_MARKERS : List String :=
  ["falsch", "false", "pants on fire", "unbelegt", "irreführend", "misleading"]

/-- True/correct marker words of `main.py`'s factor 1. -/
def MAIN_TRUE_MARKERS : List String :=
  ["wahr", "true", "correct", "richtig"]

/-- `extreme_words` of `main.py`'s factor 3. -/
def MAIN_EXTREME_WORDS : List String :=
  ["immer", "nie", "alle", "keine", "jeder", "niemand", "100%", "garantiert"]

/-- Factor 1 of `calculate_risk_score`: the fact-check rating adjustment
(`+0.5` on a false marker, else `-0.2` on a true marker, else `0`;
nothing when no fact-check was found). -/
def mainFcAdjust (fc : FactCheck) : Int :=
  if fc.found then
    let rating := pyLower (fc.rating.getD "")
    if MAIN_FALSE_MARKERS.any (fun w => pyIn w rating) then 50
    else if MAIN_TRUE_MARKERS.any (fun w => pyIn w rating) then -20
    else 0
  else 0

/-- Factor 2 of `calculate_risk_score`: `+0.3` once (the loop `break`s) when
any inline unreliable domain is a substring of the lowered source domain. -/
def mainDomainAdjust (source_domain : String) : Int :=
  if MAIN_UNRELIABLE_DOMAINS.any (fun d => pyIn d (pyLower source_domain)) then 30
  else 0

/-- Factor 3 of `calculate_risk_score`: the `for word in extreme_words` loop,
adding `0.05` for every listed word that occurs in the lowered claim text. -/
def mainExtremeAdjust (text : String) : Int :=
  MAIN_EXTREME_WORDS.foldl
    (fun s w => if pyIn (pyLower w) (pyLower text) then s + 5 else s) 0

/-- The raw sum of the three factors of `calculate_risk_score`, before the
`max(0, min(1, score))` normalisation. -/
def mainPreScore (claim : Claim) (fc : FactCheck) (source_domain : String) : Int :=
  mainFcAdjust fc + mainDomainAdjust source_domain + mainExtremeAdjust claim.text

/-- The category thresholds of `main.py` (`HIGH_RISK_THRESHOLD = 0.7`,
`MEDIUM_RISK_THRESHOLD = 0.4`). -/
def mainCategory (score : Int) : String :=
  if score ≥ 70 then "🔴 HOHES RISIKO"
  else if score ≥ 40 then "🟡 PRÜFEN"
  else "🟢 NIEDRIG"

/-- `calculate_risk_score(claim, factcheck_result, source_domain)` from
`main.py`, returning `(score, category)` with the score in hundredths. -/
def calculate_risk_score (claim : Claim) (fc : FactCheck)
    (source_domain : String) : Int × String :=
  let score := clamp01 (mainPreScore claim fc source_domain)
  (score, mainCategory score)

/-! ## crawler_simple.py : calculate_risk -/

/-- `UNRELIABLE_DOMAINS` of `crawler_simple.py` (fallback list). -/
def CRAWLER_UNRELIABLE_DOMAINS : List String :=
  ["rt.com", "sputniknews", "epochtimes", "breitbart", "infowars",
   "naturalnews", "beforeitsnews", "northkoreatimes.com",
   "northkoreaTimes.com", "bignewsnetwork.com", "newkerala.com",
   "menafn.com", "newsbreak.com", "newsmax.com", "dailywire.com"]

/-- `QUESTIONABLE_DOMAINS` of `crawler_simple.py` (fallback list). -/
def QUESTIONABLE_DOMAINS : List String :=
  ["bignewsnetwork", "northkoreatimes", "timesnewswire", "newsnetwork",
   "newswire"]

/-- False/misleading marker words of `calculate_risk`'s factor 1. -/
def CRAWLER_FALSE_MARKERS : List String :=
  ["falsch", "false", "irreführend", "misleading", "pants on fire"]

/-- True/correct marker words of `calculate_risk`'s factor 1. -/
def CRAWLER_TRUE_MARKERS : List String :=
  ["wahr", "true", "correct"]

/-- `extreme_words` of `calculate_risk`'s factor 3. -/
def CRAWLER_EXTREME_WORDS : List String :=
  ["immer", "nie", "alle", "keine", "100%", "garantiert", "beweis",
   "always", "never", "everyone", "nobody", "guaranteed", "exposed",
   "exposed"]

/-- `sensational_words` of `calculate_risk`'s factor 4. -/
def SENSATIONAL_WORDS : List String :=
  ["schock", "unglaublich", "skandal", "geheim", "enthüllt", "shocking",
   "unbelievable", "scandal", "secret", "revealed", "breaking"]

/-- Factor 1 of `calculate_risk` (same shape as `mainFcAdjust` with the
crawler's marker lists). -/
def crawlerFcAdjust (fc : FactCheck) : Int :=
  if fc.found then
    let rating := pyLower (fc.rating.getD "")
    if CRAWLER_FALSE_MARKERS.any (fun w => pyIn w rating) then 50
    else if CRAWLER_TRUE_MARKERS.any (fun w => pyIn w rating) then -20
    else 0
  else 0

/-- Factor 2 of `calculate_risk`: the domain-database contribution when
`USE_DOMAIN_DB` (the import of `domain_database.py` succeeded), else the two
fallback list checks (`+0.4` unreliable, `+0.25` questionable, cumulative). -/
def crawlerDomainAdjust (useDomainDb : Bool) (domain : String) : Int :=
  if useDomainDb then (get_domain_risk domain).1
  else
    (if CRAWLER_UNRELIABLE_DOMAINS.any (fun d => pyIn d (pyLower domain))
     then 40 else 0) +
    (if QUESTIONABLE_DOMAINS.any (fun d => pyIn d (pyLower domain))
     then 25 else 0)

/-- Factor 3 of `calculate_risk`: `+0.1` once when any extreme word occurs
in the lowered claim text. -/
def crawlerExtremeAdjust (claim_text : String) : Int :=
  if CRAWLER_EXTREME_WORDS.any (fun w => pyIn w (pyLower claim_text)) then 10
  else 0

/-- Factor 4 of `calculate_risk`: `+0.05` once when any sensationalist word
occurs in the lowered claim text. -/
def crawlerSensationalAdjust (claim_text : String) : Int :=
  if SENSATIONAL_WORDS.any (fun w => pyIn w (pyLower claim_text)) then 5
  else 0

/-- The raw sum of the four factors of `calculate_risk`, before the
`max(0, min(1, score))` normalisation. -/
def crawlerPreScore (useDomainDb : Bool) (claim_text : String)
    (fc : FactCheck) (domain : String) : Int :=
  crawlerFcAdjust fc + crawlerDomainAdjust useDomainDb domain +
    crawlerExtremeAdjust claim_text + crawlerSensationalAdjust claim_text

/-- The category thresholds of `calculate_risk` (`0.7`, `0.4`). -/
def crawlerCategory (score : Int) : String :=
  if score ≥ 70 then "HIGH"
  else if score ≥ 40 then "MEDIUM"
  else "LOW"

/-- `calculate_risk(claim_text, factcheck, domain)` from
`crawler_simple.py`, returning `(score, category)` with the score in
hundredths. `useDomainDb` is the module-level `USE_DOMAIN_DB` flag; in this
repository `domain_database.py` is present, so the flag is `true`. -/
def calculate_risk (useDomainDb : Bool) (claim_text : String)
    (fc : FactCheck) (domain : String) : Int × String :=
  let score := clamp01 (crawlerPreScore useDomainDb claim_text fc domain)
  (score, crawlerCategory score)

/-! ## Sentence splitting and claim extraction -/

/-- `re.split(r'[.!?]+', text)` on a character list: a maximal nonempty run
of `.`, `!`, `?` is one separator.  `acc` holds the current segment in
reverse, `inRun` records that the previous character was a delimiter (so a
further delimiter extends the same separator instead of emitting an empty
segment). -/
def sentSplitAux : List Char → List Char → Bool → List (List Char)
  | [], acc, _ => [acc.reverse]
  | c :: rest, acc, inRun =>
    if c == '.' || c == '!' || c == '?' then
      if inRun then sentSplitAux rest [] true
      else acc.reverse :: sentSplitAux rest [] true
    else sentSplitAux rest (c :: acc) false

/-- `re.split(r'[.!?]+', text)` from both `extract_claims` functions. -/
def sentSplit (text : String) : List String :=
  (sentSplitAux text.toList [] false).map (fun cs => String.mk cs)

/-- Number of indicator patterns matching a sentence, with the regex
patterns abstracted as Boolean predicates (`claim_score` in `main.py`,
`score` in `crawler_simple.py`). -/
def matchCount (indicators : List (String → Bool)) (s : String) : Nat :=
  (indicators.filter (fun p => p s)).length

/-- A word character in the sense of the regex `\b` boundary, restricted to
ASCII (Python's `\w` also covers further Unicode letters; the concrete
inputs used below are ASCII around the matched words). -/
def isWordChar (c : Char) : Bool := c.isAlphanum || c == '_'

/-- Does the word `w` occur in `cs` delimited by word boundaries?
`atBoundary` says the previous character (if any) was not a word char. -/
def containsWordAux (w : List Char) : List Char → Bool → Bool
  | [], _ => false
  | c :: rest, atBoundary =>
    (atBoundary && w.isPrefixOf (c :: rest) &&
      (match (c :: rest).drop w.length with
       | [] => true
       | d :: _ => !isWordChar d)) ||
    containsWordAux w rest (!isWordChar c)

/-- Model of `re.search(r'\b(?:immer|nie|alle|keine|jeder)\b', s, re.I)`,
the absolutist-quantifier indicator shared by both `CLAIM_INDICATORS`
lists.  Used to instantiate the abstract indicator lists on concrete
inputs. -/
def indicatorAbsolutist (s : String) : Bool :=
  ["immer", "nie", "alle", "keine", "jeder"].any
    (fun w => containsWordAux w.toList (pyLower s).toList true)

/-- The `Article` dataclass of `main.py`. -/
structure Article where
  url : String
  title : String
  text : String
  source_domain : String
  extracted_at : String
  content_hash : String
deriving Repr, DecidableEq

/-- `extract_claims(article)` from `main.py`: split into sentences, strip,
keep length in `[MIN_CLAIM_LENGTH, MAX_CLAIM_LENGTH] = [30, 300]`, count
matching indicators, emit a `Claim` when at least one matches, with
`confidence = min(0.3 + claim_score*0.2, 0.9)`. -/
def extract_claims_main (indicators : List (String → Bool))
    (article : Article) : List Claim :=
  (sentSplit article.text).filterMap fun sent =>
    let sentence := pyStrip sent
    if sentence.length < 30 then none
    else if sentence.length > 300 then none
    else
      let claim_score := matchCount indicators sentence
      if claim_score ≥ 1 then
        some { text := sentence,
               source_article_url := article.url,
               extraction_method := "rule_based_v1",
               confidence := min (30 + (claim_score : Int) * 20) 90 }
      else none

/-- The claim dicts `{"text": ..., "confidence": ...}` produced by
`extract_claims` in `crawler_simple.py`. -/
structure CrawlerClaim where
  text : String
  confidence : Int
deriving Repr, DecidableEq

/-- `extract_claims(text)` from `crawler_simple.py`: same pipeline but with
the strict length window `30 < len(sentence) < 250`. -/
def extract_claims_crawler (indicators : List (String → Bool))
    (text : String) : List CrawlerClaim :=
  (sentSplit text).filterMap fun sent =>
    let sentence := pyStrip sent
    if 30 < sentence.length ∧ sentence.length < 250 then
      let score := matchCount indicators sentence
      if score ≥ 1 then
        some { text := sentence,
               confidence := min (30 + (score : Int) * 20) 90 }
      else none
    else none

/-! ## Fact-check API lookups

The HTTP request is abstracted as an `ApiOutcome`: the request raised
(timeout, connection error), or returned a status code together with a body
that either fails JSON parsing or parses to a `claims` list. -/

/-- One element of a `claimReview` array. -/
structure Review where
  textualRating : Option String
  publisherName : Option String
  url : Option String
deriving Repr, DecidableEq

/-- One element of the `claims` array; `claimReview = none` models a
response object without a `"claimReview"` key (the Python code substitutes
`[{}]` then). -/
structure ApiClaimEntry where
  claimReview : Option (List Review)
deriving Repr, DecidableEq

/-- Result of attempting `response.json()` on the body. -/
inductive ParseOutcome where
  | malformed
  | parsed (claims : List ApiClaimEntry)
deriving Repr, DecidableEq

/-- Abstract outcome of the HTTP GET to the fact-check endpoint. -/
inductive ApiOutcome where
  | requestError
  | httpResponse (status : Nat) (body : ParseOutcome)
deriving Repr, DecidableEq

/-- `check_factcheck_api(claim_text)` from `crawler_simple.py` as a function
of the request outcome.  Every failure path (exception, non-200 status,
malformed JSON, empty `claims`, `claimReview` present but empty — an
`IndexError` caught by the bare `except`) yields the neutral result. -/
def check_factcheck_api (resp : ApiOutcome) : FactCheck :=
  match resp with
  | .requestError => fcNotFound
  | .httpResponse status body =>
    if status = 200 then
      match body with
      | .malformed => fcNotFound
      | .parsed claims =>
        match claims with
        | [] => fcNotFound
        | entry :: _ =>
          match entry.claimReview with
          | none =>
            { found := true, rating := none, source := none, url := none }
          | some [] => fcNotFound
          | some (review :: _) =>
            { found := true, rating := review.textualRating,
              source := review.publisherName, url := review.url }
    else fcNotFound

/-- `check_google_factcheck(claim_text)` from `main.py` as a function of the
request outcome.  Same failure handling; on success the missing-field
defaults are `"Unbekannt"` for rating and source and `""` for the URL. -/
def check_google_factcheck (resp : ApiOutcome) : FactCheck :=
  match resp with
  | .requestError => fcNotFound
  | .httpResponse status body =>
    if status = 200 then
      match body with
      | .malformed => fcNotFound
      | .parsed claims =>
        match claims with
        | [] => fcNotFound
        | entry :: _ =>
          match entry.claimReview with
          | none =>
            { found := true, rating := some "Unbekannt",
              source := some "Unbekannt", url := some "" }
          | some [] => fcNotFound
          | some (review :: _) =>
            { found := true,
              rating := some (review.textualRating.getD "Unbekannt"),
              source := some (review.publisherName.getD "Unbekannt"),
              url := some (review.url.getD "") }
    else fcNotFound

/-! ## Helper lemmas -/

/-- A lookup loop finds nothing when no list entry matches the domain. -/
lemma highRiskLookup_eq_none {l : List String} {dl : String}
    (h : ∀ d ∈ l, pyIn d dl = false) : highRiskLookup l dl = none := by
  induction l with
  | nil => rfl
  | cons d rest ih =>
    have hd : pyIn d dl = false := h d (List.mem_cons_self d rest)
    have hrest : ∀ x ∈ rest, pyIn x dl = false :=
      fun x hx => h x (List.mem_cons_of_mem d hx)
    simp [highRiskLookup, hd, ih hrest]

/-- As `highRiskLookup_eq_none`, for the MEDIUM loop. -/
lemma mediumRiskLookup_eq_none {l : List String} {dl : String}
    (h : ∀ d ∈ l, pyIn d dl = false) : mediumRiskLookup l dl = none := by
  induction l with
  | nil => rfl
  | cons d rest ih =>
    have hd : pyIn d dl = false := h d (List.mem_cons_self d rest)
    have hrest : ∀ x ∈ rest, pyIn x dl = false :=
      fun x hx => h x (List.mem_cons_of_mem d hx)
    simp [mediumRiskLookup, hd, ih hrest]

/-- As `highRiskLookup_eq_none`, for the satire loop. -/
lemma satireLookup_eq_none {l : List String} {dl : String}
    (h : ∀ d ∈ l, pyIn d dl = false) : satireLookup l dl = none := by
  induction l with
  | nil => rfl
  | cons d rest ih =>
    have hd : pyIn d dl = false := h d (List.mem_cons_self d rest)
    have hrest : ∀ x ∈ rest, pyIn x dl = false :=
      fun x hx => h x (List.mem_cons_of_mem d hx)
    simp [satireLookup, hd, ih hrest]

/-- The extreme-word `for` loop of `main.py` accumulates `0.05` per matching
word: its fold equals the initial value plus `5` times the count. -/
lemma foldl_extreme_eq (t : String) (l : List String) (init : Int) :
    l.foldl (fun s w => if pyIn (pyLower w) (pyLower t) then s + 5 else s) init =
      init + 5 * ((l.filter (fun w => pyIn (pyLower w) (pyLower t))).length : Int) := by
  induction l generalizing init with
  | nil => simp
  | cons w rest ih =>
    cases hw : pyIn (pyLower w) (pyLower t) with
    | false =>
      simp only [List.foldl_cons, List.filter_cons, hw, Bool.false_eq_true,
        if_false]
      exact ih init
    | true =>
      simp only [List.foldl_cons, List.filter_cons, hw, eq_self_iff_true,
        if_true]
      rw [ih (init + 5), List.length_cons]
      push_cast
      ring

/-! ## Claim theorems -/

/-- C1: for every claim, fact-check result and domain string, both risk
scorers return a score within `[0, 1]` (here: `[0, 100]` hundredths), and
the category is computed from the clamped score. -/
theorem risk_score_always_clamped :
    (∀ (claim : Claim) (fc : FactCheck) (d : String),
      0 ≤ (calculate_risk_score claim fc d).1 ∧
      (calculate_risk_score claim fc d).1 ≤ 100 ∧
      (calculate_risk_score claim fc d).2 =
        mainCategory (calculate_risk_score claim fc d).1) ∧
    (∀ (useDb : Bool) (t : String) (fc : FactCheck) (d : String),
      0 ≤ (calculate_risk useDb t fc d).1 ∧
      (calculate_risk useDb t fc d).1 ≤ 100 ∧
      (calculate_risk useDb t fc d).2 =
        crawlerCategory (calculate_risk useDb t fc d).1) := by
  constructor
  · intro claim fc d
    refine ⟨?_, ?_, rfl⟩ <;> simp [calculate_risk_score, clamp01]
  · intro useDb t fc d
    refine ⟨?_, ?_, rfl⟩ <;> simp [calculate_risk, clamp01]

/-- C10: `calculate_risk_score` reads only the `text` field of the claim:
two claims with identical text get identical `(score, category)`, whatever
their confidence, source article URL or extraction method. -/
theorem risk_score_depends_only_on_text (c₁ c₂ : Claim) (fc : FactCheck)
    (d : String) (h : c₁.text = c₂.text) :
    calculate_risk_score c₁ fc d = calculate_risk_score c₂ fc d := by
  simp [calculate_risk_score, mainPreScore, mainExtremeAdjust, h]

/-- Witness for C10: the same sentence with different confidence, URL and
extraction method scores identically. -/
theorem risk_score_depends_only_on_text_witness :
    calculate_risk_score
      { text := "alle Zahlen", source_article_url := "https://a.example",
        extraction_method := "rule_based_v1", confidence := 30 }
      fcNotFound "example.com" =
    calculate_risk_score
      { text := "alle Zahlen", source_article_url := "https://b.example",
        extraction_method := "llm", confidence := 90 }
      fcNotFound "example.com" :=
  risk_score_depends_only_on_text _ _ fcNotFound "example.com" rfl

/-- C9: both fact-check lookups return the neutral not-found result
`{found := false, rating := none, source := none, url := none}` when the
request raises, when the status is not 200, or when the JSON body is
malformed. -/
theorem factcheck_failure_is_neutral :
    (check_google_factcheck .requestError = fcNotFound ∧
     check_factcheck_api .requestError = fcNotFound) ∧
    (∀ (s : Nat) (b : ParseOutcome), s ≠ 200 →
      check_google_factcheck (.httpResponse s b) = fcNotFound ∧
      check_factcheck_api (.httpResponse s b) = fcNotFound) ∧
    (∀ s : Nat,
      check_google_factcheck (.httpResponse s .malformed) = fcNotFound ∧
      check_factcheck_api (.httpResponse s .malformed) = fcNotFound) := by
  refine ⟨⟨rfl, rfl⟩, ?_, ?_⟩
  · intro s b hs
    constructor <;> simp [check_google_factcheck, check_factcheck_api, hs]
  · intro s
    by_cases hs : s = 200 <;>
      constructor <;>
      simp [check_google_factcheck, check_factcheck_api, hs]

/-- Witness for C9: a timeout, a 404 with a well-formed body, and a 200 with
a malformed body all yield the neutral result. -/
theorem factcheck_failure_is_neutral_witness :
    check_factcheck_api (.httpResponse 404 (.parsed [])) = fcNotFound ∧
    check_google_factcheck (.httpResponse 200 .malformed) = fcNotFound :=
  ⟨(factcheck_failure_is_neutral.2.1 404 (.parsed []) (by decide)).2,
   (factcheck_failure_is_neutral.2.2 200).1⟩

/-- C5: a domain that no entry of any category list matches (as a substring
of its lowered form, which is how `get_domain_risk` compares) resolves to
the neutral `(0.0, "UNKNOWN", "unknown")`. -/
theorem unknown_domain_resolves_neutral (domain : String)
    (h : ∀ d ∈ HIGH_RISK_DOMAINS ++ MEDIUM_RISK_DOMAINS ++ SATIRE_RISK_DOMAINS,
      pyIn d (pyLower domain) = false) :
    get_domain_risk domain = (0, "UNKNOWN", "unknown") := by
  have hh : ∀ d ∈ HIGH_RISK_DOMAINS, pyIn d (pyLower domain) = false :=
    fun d hd => h d (by simp [hd])
  have hm : ∀ d ∈ MEDIUM_RISK_DOMAINS, pyIn d (pyLower domain) = false :=
    fun d hd => h d (by simp [hd])
  have hs : ∀ d ∈ SATIRE_RISK_DOMAINS, pyIn d (pyLower domain) = false :=
    fun d hd => h d (by simp [hd])
  simp [get_domain_risk, highRiskLookup_eq_none hh,
    mediumRiskLookup_eq_none hm, satireLookup_eq_none hs]

/-- Witness for C5: `"example.com"` matches no entry and resolves
neutrally. -/
theorem unknown_domain_resolves_neutral_witness :
    get_domain_risk "example.com" = (0, "UNKNOWN", "unknown") :=
  unknown_domain_resolves_neutral "example.com" (by decide)

/-- C6: every domain listed verbatim in a HIGH-risk category list (fake,
conspiracy, state-media, hate) resolves to level HIGH with a score
contribution of 0.5 or 0.6 — also the ones additionally listed under satire
or junk-science, since the HIGH-risk loop runs first. -/
theorem high_risk_domain_resolves_high :
    ∀ d ∈ HIGH_RISK_DOMAINS,
      (get_domain_risk d).2.1 = "HIGH" ∧
      ((get_domain_risk d).1 = 50 ∨ (get_domain_risk d).1 = 60) := by
  decide

/-- Witness for C6: a hate-list domain resolves to HIGH with
contribution 0.6. -/
theorem high_risk_domain_resolves_high_witness :
    (get_domain_risk "dailystormer.su").2.1 = "HIGH" ∧
    ((get_domain_risk "dailystormer.su").1 = 50 ∨
     (get_domain_risk "dailystormer.su").1 = 60) :=
  high_risk_domain_resolves_high "dailystormer.su" (by decide)

/-- C2 counterexample: a claim from `"infowars.com"` with no fact-check
match and no extreme or sensationalist language scores 0.5 with category
MEDIUM — not a score ≥ 0.6 with category HIGH as claimed. -/
theorem infowars_scores_medium_counterexample :
    calculate_risk true "" fcNotFound "infowars.com" = (50, "MEDIUM") ∧
    ¬(60 ≤ (calculate_risk true "" fcNotFound "infowars.com").1 ∧
      (calculate_risk true "" fcNotFound "infowars.com").2 = "HIGH") := by
  constructor <;> decide

/-- C2 as amended: a claim from `"infowars.com"` whose fact-check lookup
found nothing and whose text contains no extreme and no sensationalist
word gets the conspiracy contribution 0.5 and category MEDIUM from the
crawler scorer (with the domain database in use). -/
theorem infowars_no_factcheck_scores_medium (t : String) (fc : FactCheck)
    (hf : fc.found = false)
    (he : CRAWLER_EXTREME_WORDS.any (fun w => pyIn w (pyLower t)) = false)
    (hs : SENSATIONAL_WORDS.any (fun w => pyIn w (pyLower t)) = false) :
    calculate_risk true t fc "infowars.com" = (50, "MEDIUM") := by
  have h1 : crawlerFcAdjust fc = 0 := by simp [crawlerFcAdjust, hf]
  have h2 : crawlerDomainAdjust true "infowars.com" = 50 := by decide
  have h3 : crawlerExtremeAdjust t = 0 := by simp [crawlerExtremeAdjust, he]
  have h4 : crawlerSensationalAdjust t = 0 := by
    simp [crawlerSensationalAdjust, hs]
  simp [calculate_risk, crawlerPreScore, h1, h2, h3, h4, clamp01,
    crawlerCategory]

/-- Witness for the amended C2 at the empty claim text. -/
theorem infowars_no_factcheck_scores_medium_witness :
    calculate_risk true "" fcNotFound "infowars.com" = (50, "MEDIUM") :=
  infowars_no_factcheck_scores_medium "" fcNotFound rfl (by decide) (by decide)

/-- C3 counterexample: in `main.py` the extreme-language factor is +0.05
per matching word, not +0.1 flat — a claim text containing exactly one
extreme word (`"immer"`), with no fact-check match and an unlisted domain,
scores 0.05. -/
theorem main_extreme_language_counterexample :
    (calculate_risk_score
      { text := "immer", source_article_url := "", extraction_method := "",
        confidence := 0 } fcNotFound "example.org").1 = 5 ∧
    (calculate_risk_score
      { text := "immer", source_article_url := "", extraction_method := "",
        confidence := 0 } fcNotFound "example.org").1 ≠ 10 := by
  constructor <;> decide

/-- C3 as amended: the crawler scorer adds +0.1 flat when any extreme word
occurs in the claim text, while the `main.py` scorer adds +0.05 per
distinct listed extreme word occurring in the text. -/
theorem extreme_language_adjustments :
    (∀ t : String, CRAWLER_EXTREME_WORDS.any (fun w => pyIn w (pyLower t)) = true →
      crawlerExtremeAdjust t = 10) ∧
    (∀ t : String, mainExtremeAdjust t =
      5 * ((MAIN_EXTREME_WORDS.filter
              (fun w => pyIn (pyLower w) (pyLower t))).length : Int)) := by
  constructor
  · intro t he
    simp [crawlerExtremeAdjust, he]
  · intro t
    simpa using foldl_extreme_eq t MAIN_EXTREME_WORDS 0

/-- Witness for the amended C3: on `"immer"` the crawler adds 0.1 and the
main scorer adds 0.05 (one matching word). -/
theorem extreme_language_adjustments_witness :
    crawlerExtremeAdjust "immer" = 10 ∧
    mainExtremeAdjust "immer" =
      5 * ((MAIN_EXTREME_WORDS.filter
              (fun w => pyIn (pyLower w) (pyLower "immer"))).length : Int) :=
  ⟨extreme_language_adjustments.1 "immer" (by decide),
   extreme_language_adjustments.2 "immer"⟩

/-- C7: in both scorers at most one fact-check-rating branch fires: a found
rating containing a false/misleading marker adds +0.5 to the raw score, a
found rating containing only a true/correct marker subtracts 0.2, and a
rating containing both kinds of marker is scored as false (+0.5), because
the false markers are checked first. -/
theorem factcheck_rating_branch_exclusive :
    ∀ (r : String) (claim : Claim) (useDb : Bool) (d : String),
      let fc : FactCheck :=
        { found := true, rating := some r, source := none, url := none }
      (MAIN_FALSE_MARKERS.any (fun w => pyIn w (pyLower r)) = true →
        mainPreScore claim fc d = mainPreScore claim fcNotFound d + 50) ∧
      (MAIN_FALSE_MARKERS.any (fun w => pyIn w (pyLower r)) = false →
       MAIN_TRUE_MARKERS.any (fun w => pyIn w (pyLower r)) = true →
        mainPreScore claim fc d = mainPreScore claim fcNotFound d - 20) ∧
      (MAIN_FALSE_MARKERS.any (fun w => pyIn w (pyLower r)) = true →
       MAIN_TRUE_MARKERS.any (fun w => pyIn w (pyLower r)) = true →
        mainPreScore claim fc d = mainPreScore claim fcNotFound d + 50) ∧
      (CRAWLER_FALSE_MARKERS.any (fun w => pyIn w (pyLower r)) = true →
        crawlerPreScore useDb claim.text fc d =
          crawlerPreScore useDb claim.text fcNotFound d + 50) ∧
      (CRAWLER_FALSE_MARKERS.any (fun w => pyIn w (pyLower r)) = false →
       CRAWLER_TRUE_MARKERS.any (fun w => pyIn w (pyLower r)) = true →
        crawlerPreScore useDb claim.text fc d =
          crawlerPreScore useDb claim.text fcNotFound d - 20) ∧
      (CRAWLER_FALSE_MARKERS.any (fun w => pyIn w (pyLower r)) = true →
       CRAWLER_TRUE_MARKERS.any (fun w => pyIn w (pyLower r)) = true →
        crawlerPreScore useDb claim.text fc d =
          crawlerPreScore useDb claim.text fcNotFound d + 50) := by
  intro r claim useDb d
  have h0m : mainFcAdjust fcNotFound = 0 := rfl
  have h0c : crawlerFcAdjust fcNotFound = 0 := rfl
  refine ⟨?_, ?_, ?_, ?_, ?_, ?_⟩
  · intro hfm
    have h1 : mainFcAdjust
        { found := true, rating := some r, source := none, url := none } = 50 := by
      simp [mainFcAdjust, hfm]
    simp only [mainPreScore, h0m, h1]
    omega
  · intro hfm htm
    have h1 : mainFcAdjust
        { found := true, rating := some r, source := none, url := none } = -20 := by
      simp [mainFcAdjust, hfm, htm]
    simp only [mainPreScore, h0m, h1]
    omega
  · intro hfm _
    have h1 : mainFcAdjust
        { found := true, rating := some r, source := none, url := none } = 50 := by
      simp [mainFcAdjust, hfm]
    simp only [mainPreScore, h0m, h1]
    omega
  · intro hfm
    have h1 : crawlerFcAdjust
        { found := true, rating := some r, source := none, url := none } = 50 := by
      simp [crawlerFcAdjust, hfm]
    simp only [crawlerPreScore, h0c, h1]
    omega
  · intro hfm htm
    have h1 : crawlerFcAdjust
        { found := true, rating := some r, source := none, url := none } = -20 := by
      simp [crawlerFcAdjust, hfm, htm]
    simp only [crawlerPreScore, h0c, h1]
    omega
  · intro hfm _
    have h1 : crawlerFcAdjust
        { found := true, rating := some r, source := none, url := none } = 50 := by
      simp [crawlerFcAdjust, hfm]
    simp only [crawlerPreScore, h0c, h1]
    omega

/-- Witness for C7: the rating `"False, previously rated true"` contains
markers of both kinds and is scored as false (+0.5) by both scorers; the
rating `"wahr"` contains only a true marker and subtracts 0.2. -/
theorem factcheck_rating_branch_exclusive_witness :
    (mainPreScore
        { text := "t", source_article_url := "", extraction_method := "",
          confidence := 0 }
        { found := true, rating := some "False, previously rated true",
          source := none, url := none } "example.com" =
      mainPreScore
        { text := "t", source_article_url := "", extraction_method := "",
          confidence := 0 } fcNotFound "example.com" + 50) ∧
    (crawlerPreScore true "t"
        { found := true, rating := some "wahr", source := none, url := none }
        "example.com" =
      crawlerPreScore true "t" fcNotFound "example.com" - 20) :=
  ⟨(factcheck_rating_branch_exclusive "False, previously rated true"
      { text := "t", source_article_url := "", extraction_method := "",
        confidence := 0 } true "example.com").2.2.1 (by decide) (by decide),
   (factcheck_rating_branch_exclusive "wahr"
      { text := "t", source_article_url := "", extraction_method := "",
        confidence := 0 } true "example.com").2.2.2.2.1 (by decide) (by decide)⟩

/-- Characterisation of the claims `extract_claims_main` emits: the text is
a stripped sentence within the length window, at least one indicator
matches it, and the confidence follows the capped formula. -/
lemma extract_claims_main_spec {ind : List (String → Bool)} {a : Article}
    {c : Claim} (h : c ∈ extract_claims_main ind a) :
    30 ≤ c.text.length ∧ c.text.length ≤ 300 ∧ 1 ≤ matchCount ind c.text ∧
    c.confidence = min (30 + (matchCount ind c.text : Int) * 20) 90 := by
  rcases List.mem_filterMap.mp h with ⟨sent, _, hf⟩
  dsimp only at hf
  by_cases h1 : (pyStrip sent).length < 30
  · rw [if_pos h1] at hf; cases hf
  rw [if_neg h1] at hf
  by_cases h2 : (pyStrip sent).length > 300
  · rw [if_pos h2] at hf; cases hf
  rw [if_neg h2] at hf
  by_cases h3 : matchCount ind (pyStrip sent) ≥ 1
  · rw [if_pos h3] at hf
    cases hf
    refine ⟨?_, ?_, h3, rfl⟩
    · show 30 ≤ (pyStrip sent).length
      omega
    · show (pyStrip sent).length ≤ 300
      omega
  · rw [if_neg h3] at hf; cases hf

/-- Characterisation of the claims `extract_claims_crawler` emits: the
strict length window `30 < len < 250`, at least one matching indicator, and
the capped confidence formula. -/
lemma extract_claims_crawler_spec {ind : List (String → Bool)} {t : String}
    {c : CrawlerClaim} (h : c ∈ extract_claims_crawler ind t) :
    31 ≤ c.text.length ∧ c.text.length ≤ 249 ∧ 1 ≤ matchCount ind c.text ∧
    c.confidence = min (30 + (matchCount ind c.text : Int) * 20) 90 := by
  rcases List.mem_filterMap.mp h with ⟨sent, _, hf⟩
  dsimp only at hf
  by_cases h1 : 30 < (pyStrip sent).length ∧ (pyStrip sent).length < 250
  · rw [if_pos h1] at hf
    obtain ⟨h1a, h1b⟩ := h1
    by_cases h3 : matchCount ind (pyStrip sent) ≥ 1
    · rw [if_pos h3] at hf
      cases hf
      refine ⟨?_, ?_, h3, rfl⟩
      · show 31 ≤ (pyStrip sent).length
        omega
      · show (pyStrip sent).length ≤ 249
        omega
    · rw [if_neg h3] at hf; cases hf
  · rw [if_neg h1] at hf; cases hf

/-- A single stripped sentence inside `main.py`'s length window with a
matching indicator is emitted as a claim. -/
lemma extract_claims_main_accepts {ind : List (String → Bool)} {s : String}
    (hsplit : sentSplit s = [s]) (hstrip : pyStrip s = s)
    (hlo : 30 ≤ s.length) (hhi : s.length ≤ 300)
    (hm : 1 ≤ matchCount ind s) (u ti dom ea ch : String) :
    extract_claims_main ind
      { url := u, title := ti, text := s, source_domain := dom,
        extracted_at := ea, content_hash := ch } =
      [{ text := s, source_article_url := u,
         extraction_method := "rule_based_v1",
         confidence := min (30 + (matchCount ind s : Int) * 20) 90 }] := by
  unfold extract_claims_main
  dsimp only
  rw [hsplit]
  simp only [List.filterMap_cons, List.filterMap_nil, hstrip]
  rw [if_neg (by omega), if_neg (by omega), if_pos hm]

/-- A single stripped sentence inside the crawler's strict length window
with a matching indicator is emitted as a claim. -/
lemma extract_claims_crawler_accepts {ind : List (String → Bool)}
    {s : String} (hsplit : sentSplit s = [s]) (hstrip : pyStrip s = s)
    (hlo : 31 ≤ s.length) (hhi : s.length ≤ 249)
    (hm : 1 ≤ matchCount ind s) :
    extract_claims_crawler ind s =
      [{ text := s,
         confidence := min (30 + (matchCount ind s : Int) * 20) 90 }] := by
  unfold extract_claims_crawler
  dsimp only
  rw [hsplit]
  simp only [List.filterMap_cons, List.filterMap_nil, hstrip]
  rw [if_pos (show 30 < s.length ∧ s.length < 250 by omega), if_pos hm]

/-- C4 counterexample: the stripped 30-character sentence
`"Das sind alle Zahlen von heute"` matches an indicator (the absolutist
pattern, via `alle`), yet the crawler extractor emits nothing for it — its
strict `30 < len(sentence)` filter rejects length 30, so 30 is not the
minimum accepted length there. -/
theorem crawler_rejects_length_30_counterexample :
    pyStrip "Das sind alle Zahlen von heute" =
      "Das sind alle Zahlen von heute" ∧
    "Das sind alle Zahlen von heute".length = 30 ∧
    indicatorAbsolutist "Das sind alle Zahlen von heute" = true ∧
    extract_claims_crawler [indicatorAbsolutist]
      "Das sind alle Zahlen von heute" = [] := by
  refine ⟨?_, ?_, ?_, ?_⟩ <;> decide

/-- C4 as amended: `main.py`'s extractor excludes every stripped sentence
of 29 characters and accepts 30 as its minimum (maximum 300); the crawler
extractor uses the strict window `30 < len < 250`, so it also excludes 30
and accepts 31 as its minimum; neither emits a claim for a sentence with
zero indicator matches. -/
theorem extractor_length_boundaries :
    (∀ (ind : List (String → Bool)) (a : Article) (c : Claim),
      c ∈ extract_claims_main ind a →
      30 ≤ c.text.length ∧ c.text.length ≤ 300 ∧ 1 ≤ matchCount ind c.text) ∧
    (∀ (ind : List (String → Bool)) (t : String) (c : CrawlerClaim),
      c ∈ extract_claims_crawler ind t →
      31 ≤ c.text.length ∧ c.text.length ≤ 249 ∧ 1 ≤ matchCount ind c.text) ∧
    (∀ (ind : List (String → Bool)) (s u ti dom ea ch : String),
      sentSplit s = [s] → pyStrip s = s → s.length = 30 →
      1 ≤ matchCount ind s →
      extract_claims_main ind
        { url := u, title := ti, text := s, source_domain := dom,
          extracted_at := ea, content_hash := ch } ≠ []) ∧
    (∀ (ind : List (String → Bool)) (s : String),
      sentSplit s = [s] → pyStrip s = s → s.length = 31 →
      1 ≤ matchCount ind s → extract_claims_crawler ind s ≠ []) := by
  refine ⟨?_, ?_, ?_, ?_⟩
  · intro ind a c h
    obtain ⟨h1, h2, h3, _⟩ := extract_claims_main_spec h
    exact ⟨h1, h2, h3⟩
  · intro ind t c h
    obtain ⟨h1, h2, h3, _⟩ := extract_claims_crawler_spec h
    exact ⟨h1, h2, h3⟩
  · intro ind s u ti dom ea ch hsplit hstrip hlen hm
    rw [extract_claims_main_accepts hsplit hstrip (by omega) (by omega) hm]
    simp
  · intro ind s hsplit hstrip hlen hm
    rw [extract_claims_crawler_accepts hsplit hstrip (by omega) (by omega) hm]
    simp

/-- Witness for the amended C4: the 30-character sentence is accepted by
`main.py`'s extractor, and its 31-character variant by the crawler's. -/
theorem extractor_length_boundaries_witness :
    extract_claims_main [indicatorAbsolutist]
      { url := "u", title := "t", text := "Das sind alle Zahlen von heute",
        source_domain := "d", extracted_at := "e", content_hash := "h" } ≠ [] ∧
    extract_claims_crawler [indicatorAbsolutist]
      "Das sind alle Zahlen von heuten" ≠ [] :=
  ⟨extractor_length_boundaries.2.2.1 [indicatorAbsolutist]
      "Das sind alle Zahlen von heute" "u" "t" "d" "e" "h"
      (by decide) (by decide) (by decide) (by decide),
   extractor_length_boundaries.2.2.2 [indicatorAbsolutist]
      "Das sind alle Zahlen von heuten"
      (by decide) (by decide) (by decide) (by decide)⟩

/-- C8: every claim either extractor emits has
`confidence = min(0.3 + 0.2 · match_count, 0.9)`; the formula is monotone
in the number of matched patterns and capped at 0.9. -/
theorem confidence_formula_monotone_capped :
    (∀ (ind : List (String → Bool)) (a : Article) (c : Claim),
      c ∈ extract_claims_main ind a →
      c.confidence = min (30 + (matchCount ind c.text : Int) * 20) 90 ∧
      c.confidence ≤ 90) ∧
    (∀ (ind : List (String → Bool)) (t : String) (c : CrawlerClaim),
      c ∈ extract_claims_crawler ind t →
      c.confidence = min (30 + (matchCount ind c.text : Int) * 20) 90 ∧
      c.confidence ≤ 90) ∧
    (∀ m m' : Nat, m ≤ m' →
      min (30 + (m : Int) * 20) 90 ≤ min (30 + (m' : Int) * 20) 90) := by
  refine ⟨?_, ?_, ?_⟩
  · intro ind a c h
    obtain ⟨_, _, _, h4⟩ := extract_claims_main_spec h
    exact ⟨h4, by rw [h4]; omega⟩
  · intro ind t c h
    obtain ⟨_, _, _, h4⟩ := extract_claims_crawler_spec h
    exact ⟨h4, by rw [h4]; omega⟩
  · intro m m' hm
    have : (m : Int) ≤ (m' : Int) := by exact_mod_cast hm
    omega

/-- Witness for C8: the single claim extracted from a one-indicator
sentence carries confidence `min(0.3 + 1·0.2, 0.9) = 0.5`. -/
theorem confidence_formula_monotone_capped_witness :
    ({ text := "Das sind alle Zahlen von heute", source_article_url := "u",
       extraction_method := "rule_based_v1", confidence := 50 } : Claim).confidence =
      min (30 + (matchCount [indicatorAbsolutist]
        ({ text := "Das sind alle Zahlen von heute", source_article_url := "u",
           extraction_method := "rule_based_v1",
           confidence := 50 } : Claim).text : Int) * 20) 90 ∧
    ({ text := "Das sind alle Zahlen von heute", source_article_url := "u",
       extraction_method := "rule_based_v1",
       confidence := 50 } : Claim).confidence ≤ 90 :=
  confidence_formula_monotone_capped.1 [indicatorAbsolutist]
    { url := "u", title := "t", text := "Das sind alle Zahlen von heute",
      source_domain := "d", extracted_at := "e", content_hash := "h" }
    _ (by decide)

end FakeNewsDetector
